import Mathlib

/-!
Verification of the parking-availability core (crowd reporting, notification
fan-out, referral-based premium gating) against its natural-language
specification.

Shallow embedding conventions:
* Timestamps are stored by the program as strings "YYYY-MM-DD HH:MM:SS";
  we model a stored timestamp string as `FechaStr`: either a parseable value
  (abstracted to a `Nat` counting seconds) or an unparseable string.
  A Python `None` (or empty string, which is equally falsy and equally
  unparseable) is modelled as `Option.none`.
* `datetime.now(bogota)` is an explicit `now : Nat` parameter.
* `timedelta(days = d)` is `d * 86400` seconds; Python's
  `max(0, (a - b).days)` on timestamps is truncated `Nat` subtraction
  followed by division by 86400.
* MongoDB collections are lists; `find_one` is `List.find?`,
  `update_one` updates the first matching row (`updateFirst`),
  `update_many` maps over all matching rows, `insert_one` appends.
* Python exceptions are `Except PyError`; mutations already performed
  before a raise persist, so fallible operations return the pair
  `Except PyError α × DB`.
* Randomness (`random.choices`) is an oracle `rand : Nat → String`
  giving the i-th draw; wall-clock `time.time()` is an explicit `Nat`.
* Outbound WhatsApp messages (`send_message`, not under src/) are
  collected in a returned list of (recipient, text) pairs.
-/

/-- A stored timestamp string: parseable to an abstract instant, or not. -/
inductive FechaStr where
  | valida (t : Nat)
  | invalida (s : String)
deriving DecidableEq

/-- Decimal digit-run parser: a non-empty all-digit character list, or `none`. -/
def parseDigits (cs : List Char) : Option Nat :=
  if cs ≠ [] ∧ cs.all Char.isDigit then
    some (cs.foldl (fun acc c => acc * 10 + (c.toNat - 48)) 0)
  else none

/-- Python `int(s)`: strips surrounding whitespace, accepts an optional sign
followed by a non-empty digit run, otherwise raises `ValueError` (modelled as
`none`). -/
def python_int (s : String) : Option Int :=
  let cs := ((s.data.dropWhile Char.isWhitespace).reverse.dropWhile Char.isWhitespace).reverse
  match cs with
  | '-' :: rest => (parseDigits rest).map (fun n => -(n : Int))
  | '+' :: rest => (parseDigits rest).map (fun n => (n : Int))
  | rest => (parseDigits rest).map (fun n => (n : Int))

/-- Python exceptions that can escape the embedded code. -/
inductive PyError where
  | valueError (msg : String)
  | attributeError (msg : String)
deriving DecidableEq

deriving instance DecidableEq for Except

/-! ## tiempo_utils (src/app/utils/tiempo_utils.py) -/

/-- `obtener_tiempo_bogota`: the current time, formatted; always parseable. -/
def obtener_tiempo_bogota (now : Nat) : FechaStr := .valida now

/-- `calcular_fecha_expiracion_premium`: now + `dias` days. -/
def calcular_fecha_expiracion_premium (now : Nat) (dias : Nat) : FechaStr :=
  .valida (now + dias * 86400)

/-- `extender_fecha_expiracion_premium`: parse the stored expiration and add
`dias` days to it; on parse failure (ValueError/TypeError) fall back to
now + `dias` days. -/
def extender_fecha_expiracion_premium (now : Nat) (fecha_actual : Option FechaStr)
    (dias : Nat) : FechaStr :=
  match fecha_actual with
  | some (.valida t) => .valida (t + dias * 86400)
  | some (.invalida _) => calcular_fecha_expiracion_premium now dias
  | none => calcular_fecha_expiracion_premium now dias

/-- `verificar_premium_activo`: false for a missing/empty date, false on parse
failure, otherwise `now < expiration`. -/
def verificar_premium_activo (now : Nat) (fecha_expiracion : Option FechaStr) : Bool :=
  match fecha_expiracion with
  | none => false
  | some (.invalida _) => false
  | some (.valida t) => decide (now < t)

/-! ## Data model (src/app/models/database_models.py)

Only the fields read or written by the embedded operations are kept
(`rol`, `estado_chat`, `estado_registro`, `similarity_score`, `tipo_reporte`
default is kept, conversation fields are dropped as irrelevant glue). -/

structure User where
  id : String
  name : Option String := none
  es_premium : Bool := false
  fecha_expiracion_premium : Option FechaStr := none
  codigo_referido : Option String := none
  referido_por : Option String := none
  numero_referidos : Nat := 0
deriving DecidableEq

structure Parqueadero where
  id : String
  name : String
  ubicacion : String := ""
  capacidad : Nat := 0
  tiene_cupos : Bool := true
  cupos_libres : String := "0"
  rango_cupos : Option String := none
  estado_ocupacion : Option String := none
  ultima_actualizacion : Option FechaStr := none
deriving DecidableEq

structure Suscripcion where
  conductor_id : String
  parqueadero_id : Option String := none
  fecha_suscripcion : Option FechaStr := none
  activa : Bool := true
deriving DecidableEq

structure ReporteParqueadero where
  parqueadero_id : String
  conductor_id : String
  fecha_reporte : Option FechaStr := none
  tipo_reporte : String := "cupos_disponibles"
  procesado : Bool := false
deriving DecidableEq

/-- The whole backing store (the four MongoDB collections the core touches). -/
structure DB where
  usuarios : List User := []
  parqueaderos : List Parqueadero := []
  suscripciones : List Suscripcion := []
  reportes : List ReporteParqueadero := []
deriving DecidableEq

/-- MongoDB `update_one`: rewrite the first row matching `p`. -/
def updateFirst {α : Type} (p : α → Bool) (f : α → α) : List α → List α
  | [] => []
  | x :: xs => if p x then f x :: xs else x :: updateFirst p f xs

/-- `update_one` on the `usuarios` collection keyed by `_id`. -/
def DB.updateUsuario (db : DB) (user_id : String) (f : User → User) : DB :=
  { db with usuarios := updateFirst (fun u => u.id == user_id) f db.usuarios }

/-- `update_one` on the `parqueaderos` collection keyed by `_id`. -/
def DB.updateParqueadero (db : DB) (parking_id : String) (f : Parqueadero → Parqueadero) : DB :=
  { db with parqueaderos := updateFirst (fun p => p.id == parking_id) f db.parqueaderos }

/-! ## UserRepository (src/app/repositories/user_repositories.py) -/

namespace UserRepository

/-- Modelled from the spec: `BaseRepository.find_by_id` is not under src/; per
the spec the entitlement store resolves a user by its primary key
(`find_one` on `_id`). -/
def find_by_id (db : DB) (user_id : String) : Option User :=
  db.usuarios.find? (fun u => u.id == user_id)

def asignar_codigo_referido (db : DB) (user_id codigo : String) : DB :=
  db.updateUsuario user_id (fun u => { u with codigo_referido := some codigo })

def buscar_por_codigo_referido (db : DB) (codigo : String) : Option User :=
  db.usuarios.find? (fun u => u.codigo_referido == some codigo)

def registrar_referido (db : DB) (user_id codigo_referidor : String) : DB :=
  db.updateUsuario user_id (fun u => { u with referido_por := some codigo_referidor })

def incrementar_referidos (db : DB) (user_id : String) : DB :=
  db.updateUsuario user_id (fun u => { u with numero_referidos := u.numero_referidos + 1 })

def activar_premium (db : DB) (user_id : String) (fecha_expiracion : FechaStr) : DB :=
  db.updateUsuario user_id (fun u =>
    { u with es_premium := true, fecha_expiracion_premium := some fecha_expiracion })

def desactivar_premium (db : DB) (user_id : String) : DB :=
  db.updateUsuario user_id (fun u =>
    { u with es_premium := false, fecha_expiracion_premium := none })

def verificar_codigo_disponible (db : DB) (codigo : String) : Bool :=
  (db.usuarios.find? (fun u => u.codigo_referido == some codigo)).isNone

end UserRepository

/-! ## ParqueaderoRepository (src/app/repositories/parqueadero_repository.py) -/

namespace ParqueaderoRepository

/-- Modelled from the spec: `BaseRepository.find_by_id` is not under src/; per
the spec the Lot store exposes `find(lot_id)` (`find_one` on `_id`). -/
def find_by_id (db : DB) (parking_id : String) : Option Parqueadero :=
  db.parqueaderos.find? (fun p => p.id == parking_id)

def actualizar_cupos_con_rango (now : Nat) (db : DB) (parking_id cupos_libres : String)
    (tiene_cupos : Bool) (rango_cupos estado_ocupacion : String) :
    Option Parqueadero × DB :=
  let db' : DB := db.updateParqueadero parking_id (fun p =>
    { p with cupos_libres := cupos_libres, tiene_cupos := tiene_cupos,
             rango_cupos := some rango_cupos, estado_ocupacion := some estado_ocupacion,
             ultima_actualizacion := some (obtener_tiempo_bogota now) })
  (find_by_id db' parking_id, db')

end ParqueaderoRepository

/-! ## SubscriptionIndex / NotificationService -/

namespace SuscripcionRepository

/-- Modelled from the spec: `SuscripcionRepository` is not under src/; an
active subscription for (driver, lot-or-wildcard) is looked up exactly. -/
def find_active_suscripcion (db : DB) (conductor_id : String)
    (parqueadero_id : Option String) : Option Suscripcion :=
  db.suscripciones.find? (fun s =>
    s.conductor_id == conductor_id && s.parqueadero_id == parqueadero_id && s.activa)

/-- Modelled from the spec: `SuscripcionRepository.create_suscripcion` is not
under src/; inserts a new active subscription row. -/
def create_suscripcion (now : Nat) (db : DB) (conductor_id : String)
    (parqueadero_id : Option String) : DB :=
  let nueva : Suscripcion :=
    { conductor_id := conductor_id, parqueadero_id := parqueadero_id,
      fecha_suscripcion := some (obtener_tiempo_bogota now), activa := true }
  { db with suscripciones := db.suscripciones ++ [nueva] }

/-- Modelled from the spec: `SuscripcionRepository.desactivar_todas_suscripciones`
is not under src/; deactivates every active subscription of the driver and
returns how many were deactivated. -/
def desactivar_todas_suscripciones (db : DB) (conductor_id : String) : Nat × DB :=
  let n := (db.suscripciones.filter (fun s => s.conductor_id == conductor_id && s.activa)).length
  let nuevas := db.suscripciones.map (fun s =>
    if s.conductor_id == conductor_id && s.activa then { s with activa := false } else s)
  (n, { db with suscripciones := nuevas })

end SuscripcionRepository

namespace NotificationService

/-- Modelled from the spec: `NotificationService` is not under src/; the
fan-out target set is the union of drivers actively subscribed to the lot and
drivers with an active wildcard subscription, without duplicates. -/
def targets_for_lot (db : DB) (lot_id : String) : List String :=
  ((db.suscripciones.filter (fun s =>
      s.activa && (s.parqueadero_id == some lot_id || s.parqueadero_id == none))).map
    (fun s => s.conductor_id)).dedup

/-- Modelled from the spec: `notificar_cupo_liberado` sends one notification
per fan-out target and returns the number of notifications sent. -/
def notificar_cupo_liberado (db : DB) (lot_id : String) : Nat :=
  (targets_for_lot db lot_id).length

end NotificationService

/-- `ParqueaderoRepository.actualizar_cupos_con_notificacion`: update the lot,
then—when `tiene_cupos` and `int(cupos_libres) > 0`—notify subscribers.
`int` on a non-numeric descriptor raises ValueError; `model_dump` on a missing
lot raises AttributeError. Mutations before a raise persist in the store. -/
def actualizar_cupos_con_notificacion (now : Nat) (db : DB)
    (parking_id cupos_libres : String) (tiene_cupos : Bool)
    (rango_cupos estado_ocupacion : String) :
    Except PyError (Parqueadero × Nat) × DB :=
  let r := ParqueaderoRepository.actualizar_cupos_con_rango now db parking_id
      cupos_libres tiene_cupos rango_cupos estado_ocupacion
  let db' := r.2
  if tiene_cupos then
    match python_int cupos_libres with
    | none =>
      (.error (.valueError ("invalid literal for int() with base 10: " ++ cupos_libres)), db')
    | some n =>
      let notificaciones_enviadas :=
        if 0 < n then NotificationService.notificar_cupo_liberado db' parking_id else 0
      match r.1 with
      | none => (.error (.attributeError "NoneType object has no attribute model_dump"), db')
      | some p => (.ok (p, notificaciones_enviadas), db')
  else
    match r.1 with
    | none => (.error (.attributeError "NoneType object has no attribute model_dump"), db')
    | some p => (.ok (p, 0), db')

/-! ## ReporteRepository (src/app/repositories/reporte_repository.py) -/

namespace ReporteRepository

def crear_reporte (now : Nat) (db : DB) (parqueadero_id conductor_id : String) : DB :=
  let nuevo : ReporteParqueadero :=
    { parqueadero_id := parqueadero_id, conductor_id := conductor_id,
      fecha_reporte := some (obtener_tiempo_bogota now),
      tipo_reporte := "cupos_disponibles", procesado := false }
  { db with reportes := db.reportes ++ [nuevo] }

def verificar_reporte_existente (db : DB) (parqueadero_id conductor_id : String) : Bool :=
  (db.reportes.find? (fun r =>
    r.parqueadero_id == parqueadero_id && r.conductor_id == conductor_id
      && !r.procesado)).isSome

def contar_reportes_activos (db : DB) (parqueadero_id : String) : Nat :=
  (db.reportes.filter (fun r => r.parqueadero_id == parqueadero_id && !r.procesado)).length

def marcar_reportes_como_procesados (db : DB) (parqueadero_id : String) : Nat × DB :=
  let n := (db.reportes.filter (fun r => r.parqueadero_id == parqueadero_id && !r.procesado)).length
  let nuevos := db.reportes.map (fun r =>
    if r.parqueadero_id == parqueadero_id && !r.procesado then { r with procesado := true } else r)
  (n, { db with reportes := nuevos })

/-- Modelled from the spec: `limpiar_reportes_parqueadero` is not under src/;
per the spec the full set of the lot's reports is purged (deleted) after
being marked processed, so the live count resets to 0. -/
def limpiar_reportes_parqueadero (db : DB) (parqueadero_id : String) : DB :=
  { db with reportes := db.reportes.filter (fun r => !(r.parqueadero_id == parqueadero_id)) }

end ReporteRepository

/-! ## PremiumService (src/app/services/premium_service.py) -/

/-- Result record of `verificar_acceso_premium`. -/
structure AccesoPremium where
  tiene_acceso : Bool
  es_premium : Bool
  fecha_expiracion : Option FechaStr
  dias_restantes : Nat
deriving DecidableEq

/-- `PremiumService._calcular_dias_restantes`: `max(0, (expiration - now).days)`,
0 on parse failure. -/
def calcular_dias_restantes (now : Nat) (fecha_expiracion : FechaStr) : Nat :=
  match fecha_expiracion with
  | .invalida _ => 0
  | .valida t => (t - now) / 86400

/-- `PremiumService.verificar_acceso_premium`: read the entitlement record;
when the premium flag and an expiration are present, recompute liveness and,
if expired, write back the deactivation (lazy expiration). The returned record
reports the fields as read before any write-back. -/
def verificar_acceso_premium (now : Nat) (db : DB) (user_id : String) :
    AccesoPremium × DB :=
  match UserRepository.find_by_id db user_id with
  | none =>
    ({ tiene_acceso := false, es_premium := false, fecha_expiracion := none,
       dias_restantes := 0 }, db)
  | some usuario =>
    if usuario.es_premium && usuario.fecha_expiracion_premium.isSome then
      let tiene_acceso := verificar_premium_activo now usuario.fecha_expiracion_premium
      let db' := if !tiene_acceso && usuario.es_premium then
          UserRepository.desactivar_premium db user_id else db
      let dias_restantes :=
        if tiene_acceso && usuario.fecha_expiracion_premium.isSome then
          match usuario.fecha_expiracion_premium with
          | some f => calcular_dias_restantes now f
          | none => 0
        else 0
      ({ tiene_acceso := tiene_acceso, es_premium := usuario.es_premium,
         fecha_expiracion := usuario.fecha_expiracion_premium,
         dias_restantes := dias_restantes }, db')
    else
      ({ tiene_acceso := false, es_premium := usuario.es_premium,
         fecha_expiracion := usuario.fecha_expiracion_premium,
         dias_restantes := 0 }, db)

/-- Fixed text of the paywall template before the first code interpolation. -/
def paywallSeg1 : String :=
  "🔒 *Función Premium - Notificaciones*\n\nLas notificaciones automáticas de cupos disponibles son una función *Premium*.\n\n🌟 *¿Cómo obtener Premium gratis?*\n\nComparte tu código de referido con tus amigos:\n📋 Tu código: `"

/-- Fixed paywall text between the code and the referral count. -/
def paywallSeg2 : String :=
  "`\n\n*¡Por cada amigo que use tu código, obtienes 7 días gratis!*\n\n📊 Tus estadísticas:\n• Referidos actuales: "

/-- Fixed paywall text between the referral count and the days earned. -/
def paywallSeg3 : String := "\n• Días premium ganados: "

/-- Fixed paywall text between the days earned and the second code. -/
def paywallSeg4 : String := "\n\n💡 *Cómo funciona:*\n1. Comparte tu código `"

/-- Fixed paywall text after the second code interpolation. -/
def paywallSeg5 : String :=
  "` con amigos\n2. Ellos lo ingresan al registrarse\n3. ¡Automáticamente recibes 7 días premium por cada uno!\n\n_Próximamente: Opción de pago para Premium ilimitado_"

/-- The paywall text of `mostrar_paywall_notificaciones`, with the two code
interpolations, the referral count and the days-earned figure. -/
def mensaje_paywall (codigo : String) (numero_referidos : Nat) : String :=
  paywallSeg1 ++ codigo ++ paywallSeg2 ++ toString numero_referidos ++ paywallSeg3
    ++ toString (numero_referidos * 7) ++ paywallSeg4 ++ codigo ++ paywallSeg5

/-- `PremiumService.mostrar_paywall_notificaciones`: build, and send to the
user, the paywall message. A missing user yields the "N/A" code and count 0;
a present user with no code interpolates Python's `None`. Returns the text
handed to the external `send_message` dispatcher. -/
def mostrar_paywall_notificaciones (db : DB) (user_id : String) : String :=
  let codigo_referido := match UserRepository.find_by_id db user_id with
    | some u => u.codigo_referido.getD "None"
    | none => "N/A"
  let numero_referidos := match UserRepository.find_by_id db user_id with
    | some u => u.numero_referidos
    | none => 0
  mensaje_paywall codigo_referido numero_referidos

/-- The reminder text sent after a report when the reporter has premium. -/
def mensaje_recordar_premium (codigo : String) (numero_referidos dias_restantes : Nat) : String :=
  "✅ *¡Gracias por reportar!*\n\n🎁 *Sigue ganando días premium:*\n\nTu código: `"
    ++ codigo ++ "`\nReferidos: " ++ toString numero_referidos
    ++ "\nDías premium restantes: " ++ toString dias_restantes
    ++ "\n\nComparte tu código y obtén *7 días más* por cada amigo. 🚀"

/-- The reminder text sent after a report when the reporter has no premium. -/
def mensaje_recordar_sin_premium (codigo : String) (numero_referidos : Nat) : String :=
  "✅ *¡Gracias por reportar!*\n\n🎁 *¿Quieres recibir notificaciones automáticas?*\n\nComparte tu código de referido:\n📋 `"
    ++ codigo ++ "`\n\n*¡Gana 7 días premium gratis por cada amigo!*\n\nReferidos actuales: "
    ++ toString numero_referidos

/-- `PremiumService.recordar_codigo_referido` (growth-loop CTA): read the user,
run the premium check (which may lazily deactivate an expired record) and send
one reminder message; silently does nothing for a missing user. Returns the
updated store and the (recipient, text) messages handed to `send_message`. -/
def recordar_codigo_referido (now : Nat) (db : DB) (user_id : String) :
    DB × List (String × String) :=
  match UserRepository.find_by_id db user_id with
  | none => (db, [])
  | some usuario =>
    let codigo_referido := usuario.codigo_referido.getD "N/A"
    let numero_referidos := usuario.numero_referidos
    let r := verificar_acceso_premium now db user_id
    let mensaje :=
      if r.1.tiene_acceso then
        mensaje_recordar_premium codigo_referido numero_referidos r.1.dias_restantes
      else
        mensaje_recordar_sin_premium codigo_referido numero_referidos
    (r.2, [(user_id, mensaje)])

/-! ## Referral session logic (src/app/logic/sesion.py) -/

/-- The bounded retry loop of `generar_y_asignar_codigo_referido`: try the
draws `rand i`, `rand (i+1)`, ... while fuel lasts, returning the first draw
whose code is still available. -/
def intentos_codigo (rand : Nat → String) (db : DB) : Nat → Nat → Option String
  | _, 0 => none
  | i, fuel + 1 =>
    if UserRepository.verificar_codigo_disponible db (rand i) then some (rand i)
    else intentos_codigo rand db (i + 1) fuel

/-- Python `f"{n:04d}"`: decimal digits zero-padded on the left to width 4. -/
def pad4 (n : Nat) : String :=
  let s := toString n
  String.mk (List.replicate (4 - s.length) '0') ++ s

/-- Fallback code of `generar_y_asignar_codigo_referido`: "SB" followed by the
current UNIX time modulo 10000, zero-padded to 4 digits. -/
def codigo_timestamp (time : Nat) : String := "SB" ++ pad4 (time % 10000)

/-- `generar_y_asignar_codigo_referido`: up to 10 random 6-character draws are
checked for availability; the first available one is assigned and returned.
If all 10 collide, the time-derived fallback code is assigned and returned
without any availability check. -/
def generar_y_asignar_codigo_referido (rand : Nat → String) (time : Nat)
    (db : DB) (wa_id : String) : String × DB :=
  match intentos_codigo rand db 0 10 with
  | some codigo => (codigo, UserRepository.asignar_codigo_referido db wa_id codigo)
  | none =>
    (codigo_timestamp time, UserRepository.asignar_codigo_referido db wa_id (codigo_timestamp time))

/-- Result record of `procesar_codigo_referido`. -/
structure ResultadoReferido where
  exito : Bool
  mensaje : String
  referidor_id : Option String
  nombre_referidor : Option String := none
deriving DecidableEq

/-- `procesar_codigo_referido`: resolve the code to its owner (soft failure if
none), record `referido_por` on the redeeming user, increment the owner's
referral count, and grant the owner the 7-day premium block — extending from
the stored expiration when the stored record has the premium flag and an
expiration value, else starting from now. -/
def procesar_codigo_referido (now : Nat) (db : DB) (wa_id codigo_referidor : String) :
    ResultadoReferido × DB :=
  match UserRepository.buscar_por_codigo_referido db codigo_referidor with
  | none =>
    ({ exito := false, mensaje := "Código de referido no válido",
       referidor_id := none }, db)
  | some referidor =>
    let db := UserRepository.registrar_referido db wa_id codigo_referidor
    let db := UserRepository.incrementar_referidos db referidor.id
    let nueva_fecha :=
      if referidor.fecha_expiracion_premium.isSome && referidor.es_premium then
        extender_fecha_expiracion_premium now referidor.fecha_expiracion_premium 7
      else
        calcular_fecha_expiracion_premium now 7
    let db := UserRepository.activar_premium db referidor.id nueva_fecha
    ({ exito := true,
       mensaje := "¡Código válido! " ++ (referidor.name.getD "Tu referidor")
         ++ " ha recibido 7 días de premium.",
       referidor_id := some referidor.id,
       nombre_referidor := referidor.name }, db)

/-! ## Report tool (src/app/tools/reporte_tools.py) -/

def mensaje_parqueadero_no_encontrado (parqueadero_id : String) : String :=
  "❌ No se encontró el parqueadero con ID: " ++ parqueadero_id

def mensaje_ya_reportado (nombre : String) (reportes_actuales : Nat) : String :=
  "ℹ️ Ya has reportado que **" ++ nombre
    ++ "** tiene cupos disponibles.\n\n📊 Reportes actuales: **"
    ++ toString reportes_actuales
    ++ "/5**\n\n⏳ Cuando se alcancen 5 reportes de diferentes usuarios, se activarán los cupos automáticamente."

def mensaje_activado (nombre : String) (notificaciones_enviadas : Nat) : String :=
  "🎉 **¡Reporte registrado exitosamente!**\n\n✅ Se alcanzaron **5 reportes** para **"
    ++ nombre
    ++ "**\n\n🚗 **El parqueadero ha sido activado** con cupos disponibles\n📢 Se enviaron **"
    ++ toString notificaciones_enviadas
    ++ " notificaciones** a los suscriptores\n\n🔄 El contador de reportes se ha reiniciado a 0\n\n¡Gracias por tu colaboración! 🙏"

def mensaje_pendiente (nombre : String) (reportes_actuales reportes_faltantes : Nat) : String :=
  "✅ **Reporte registrado exitosamente**\n\n📍 Parqueadero: **" ++ nombre
    ++ "**\n📊 Reportes actuales: **" ++ toString reportes_actuales
    ++ "/5**\n⏳ Faltan **" ++ toString reportes_faltantes
    ++ " reporte(s)** más para activar los cupos automáticamente\n\n¡Gracias por tu colaboración! Cuando se alcancen 5 reportes, se notificará a todos los suscriptores."

/-- `reportar_cupos_disponibles`: the core report-submission operation.
Checks the lot, rejects duplicate unprocessed reports by the same driver,
inserts the report, and on reaching 5 live reports runs the activation
sequence (lot transition + notification fan-out + mark processed + purge).
Returns the outcome (or the Python exception that escaped), the updated
store, and the messages handed to `send_message`. -/
def reportar_cupos_disponibles (now : Nat) (db : DB) (user_id parqueadero_id : String) :
    Except PyError String × DB × List (String × String) :=
  match ParqueaderoRepository.find_by_id db parqueadero_id with
  | none => (.ok (mensaje_parqueadero_no_encontrado parqueadero_id), db, [])
  | some parqueadero =>
    if ReporteRepository.verificar_reporte_existente db parqueadero_id user_id then
      let reportes_actuales := ReporteRepository.contar_reportes_activos db parqueadero_id
      (.ok (mensaje_ya_reportado parqueadero.name reportes_actuales), db, [])
    else
      let db := ReporteRepository.crear_reporte now db parqueadero_id user_id
      let reportes_actuales := ReporteRepository.contar_reportes_activos db parqueadero_id
      if 5 ≤ reportes_actuales then
        match actualizar_cupos_con_notificacion now db parqueadero_id "Algunos cupos" true
            "Reportado por usuarios" "Disponible según reportes de conductores" with
        | (.error e, db) => (.error e, db, [])
        | (.ok resultado, db) =>
          let db := (ReporteRepository.marcar_reportes_como_procesados db parqueadero_id).2
          let db := ReporteRepository.limpiar_reportes_parqueadero db parqueadero_id
          let notificaciones_enviadas := resultado.2
          let r := recordar_codigo_referido now db user_id
          (.ok (mensaje_activado parqueadero.name notificaciones_enviadas), r.1, r.2)
      else
        let reportes_faltantes := 5 - reportes_actuales
        let r := recordar_codigo_referido now db user_id
        (.ok (mensaje_pendiente parqueadero.name reportes_actuales reportes_faltantes), r.1, r.2)

/-! ## Subscription tools (src/app/tools/suscripcion_tools.py) -/

def mensaje_lock_premium : String :=
  "🔒 Las notificaciones son una función Premium. Revisa el mensaje anterior para saber cómo obtener acceso gratis."

def mensaje_ya_suscrito (nombre : String) : String :=
  "ℹ️ Ya estás suscrito a **" ++ nombre ++ "**"

def mensaje_suscripcion_exitosa (nombre : String) (dias_restantes : Nat) : String :=
  "✅ ¡Suscripción exitosa!\n\nAhora recibirás notificaciones de **" ++ nombre
    ++ "** cuando haya cupos disponibles.\n\n⏰ Premium activo: "
    ++ toString dias_restantes ++ " días restantes"

def mensaje_ya_suscrito_todos : String :=
  "ℹ️ Ya estás suscrito a todos los parqueaderos"

def mensaje_suscrito_todos (dias_restantes : Nat) : String :=
  "✅ ¡Suscripción exitosa!\n\nAhora recibirás notificaciones de TODOS los parqueaderos cuando tengan cupos disponibles.\n\n⏰ Premium activo: "
    ++ toString dias_restantes ++ " días restantes"

/-- `suscribirse_a_parqueadero`: premium gate first (paywall message on
failure, before any lot lookup), then lot existence, then duplicate check,
then subscription creation. -/
def suscribirse_a_parqueadero (now : Nat) (db : DB) (user_id parqueadero_id : String) :
    String × List (String × String) × DB :=
  let r := verificar_acceso_premium now db user_id
  let acceso := r.1
  let db := r.2
  if !acceso.tiene_acceso then
    (mensaje_lock_premium, [(user_id, mostrar_paywall_notificaciones db user_id)], db)
  else
    match ParqueaderoRepository.find_by_id db parqueadero_id with
    | none => (mensaje_parqueadero_no_encontrado parqueadero_id, [], db)
    | some parqueadero =>
      match SuscripcionRepository.find_active_suscripcion db user_id (some parqueadero_id) with
      | some _ => (mensaje_ya_suscrito parqueadero.name, [], db)
      | none =>
        let db := SuscripcionRepository.create_suscripcion now db user_id (some parqueadero_id)
        (mensaje_suscripcion_exitosa parqueadero.name acceso.dias_restantes, [], db)

/-- `suscribirse_a_todos`: premium gate first, then the wildcard duplicate
check; creating the wildcard first deactivates every active subscription of
the driver. -/
def suscribirse_a_todos (now : Nat) (db : DB) (user_id : String) :
    String × List (String × String) × DB :=
  let r := verificar_acceso_premium now db user_id
  let acceso := r.1
  let db := r.2
  if !acceso.tiene_acceso then
    (mensaje_lock_premium, [(user_id, mostrar_paywall_notificaciones db user_id)], db)
  else
    match SuscripcionRepository.find_active_suscripcion db user_id none with
    | some _ => (mensaje_ya_suscrito_todos, [], db)
    | none =>
      let db := (SuscripcionRepository.desactivar_todas_suscripciones db user_id).2
      let db := SuscripcionRepository.create_suscripcion now db user_id none
      (mensaje_suscrito_todos acceso.dias_restantes, [], db)

/-! ## Concrete scenario stores used by closed theorems and witnesses -/

/-- A lot one report away from the threshold: four live reports by d1..d4. -/
def dbUmbral : DB :=
  { usuarios := [{ id := "d5" }],
    parqueaderos := [{ id := "p1", name := "Central", ubicacion := "Cll 100", capacidad := 50,
                       tiene_cupos := false, cupos_libres := "0" }],
    suscripciones := [{ conductor_id := "s1", parqueadero_id := some "p1" },
                      { conductor_id := "s2", parqueadero_id := none }],
    reportes := [{ parqueadero_id := "p1", conductor_id := "d1" },
                 { parqueadero_id := "p1", conductor_id := "d2" },
                 { parqueadero_id := "p1", conductor_id := "d3" },
                 { parqueadero_id := "p1", conductor_id := "d4" }] }

/-- A second threshold scenario, lot q1 reported by e1..e4 and then e5. -/
def dbUmbral2 : DB :=
  { usuarios := [{ id := "e5" }],
    parqueaderos := [{ id := "q1", name := "Norte", ubicacion := "Cll 170", capacidad := 30,
                       tiene_cupos := false, cupos_libres := "0" }],
    suscripciones := [{ conductor_id := "w1", parqueadero_id := none }],
    reportes := [{ parqueadero_id := "q1", conductor_id := "e1" },
                 { parqueadero_id := "q1", conductor_id := "e2" },
                 { parqueadero_id := "q1", conductor_id := "e3" },
                 { parqueadero_id := "q1", conductor_id := "e4" }] }

/-- A referrer whose stored premium expired at t=86400, observed at t=864000. -/
def dbReferidorVencido : DB :=
  { usuarios := [{ id := "A", es_premium := true,
                   fecha_expiracion_premium := some (.valida 86400),
                   codigo_referido := some "ABC123" },
                 { id := "B" }] }

/-- A store already holding the code "SB0000", forcing a fallback collision. -/
def dbCodigoOcupado : DB :=
  { usuarios := [{ id := "X", codigo_referido := some "SB0000" }, { id := "Y" }] }

/-- A user whose premium expired at t=100, observed at t=200. -/
def dbPremiumVencido : DB :=
  { usuarios := [{ id := "u1", es_premium := true,
                   fecha_expiracion_premium := some (.valida 100) }] }

/-- A user holding their own referral code "MIOMIO". -/
def dbAutoReferido : DB :=
  { usuarios := [{ id := "Z", codigo_referido := some "MIOMIO", numero_referidos := 2 }] }

/-- A premium user (expires t=10^9) with an active wildcard and a specific
subscription, plus an existing lot r1. -/
def dbSuscriptor : DB :=
  { usuarios := [{ id := "c1", es_premium := true,
                   fecha_expiracion_premium := some (.valida 1000000000),
                   codigo_referido := some "COD111", numero_referidos := 1 }],
    parqueaderos := [{ id := "r1", name := "Sur", ubicacion := "Cll 20", capacidad := 10 }],
    suscripciones := [{ conductor_id := "c1", parqueadero_id := none }] }

/-- A non-premium driver with 3 referrals and code "REF333"; lot r2 exists. -/
def dbSinPremium : DB :=
  { usuarios := [{ id := "c2", codigo_referido := some "REF333", numero_referidos := 3 }],
    parqueaderos := [{ id := "r2", name := "Este", ubicacion := "Cll 30", capacidad := 20 }],
    suscripciones := [{ conductor_id := "otro", parqueadero_id := some "r2" }] }

/-- A lot with an existing live report by d1, for the duplicate-report path. -/
def dbDuplicado : DB :=
  { usuarios := [{ id := "d1" }],
    parqueaderos := [{ id := "p9", name := "Oeste", ubicacion := "Cll 40", capacidad := 15 }],
    reportes := [{ parqueadero_id := "p9", conductor_id := "d1" },
                 { parqueadero_id := "p9", conductor_id := "d2" }] }

/-! ## Helper lemmas -/

theorem find?_updateFirst_pos {α : Type} (p : α → Bool) (f : α → α)
    (hpf : ∀ x, p (f x) = p x) :
    ∀ xs : List α, (updateFirst p f xs).find? p = (xs.find? p).map f := by
  intro xs
  induction xs with
  | nil => rfl
  | cons x xs ih =>
    by_cases h : p x
    · simp [updateFirst, h, List.find?_cons, hpf x]
    · simp [updateFirst, h, List.find?_cons, hpf x, ih]

theorem find?_updateFirst_neg {α : Type} (p q : α → Bool) (f : α → α)
    (hq : ∀ x, q (f x) = q x) (hpq : ∀ x, p x = true → q x = false) :
    ∀ xs : List α, (updateFirst p f xs).find? q = xs.find? q := by
  intro xs
  induction xs with
  | nil => rfl
  | cons x xs ih =>
    by_cases h : p x
    · simp [updateFirst, h, List.find?_cons, hq x, hpq x h]
    · by_cases h2 : q x
      · simp [updateFirst, h, List.find?_cons, h2]
      · simp [updateFirst, h, List.find?_cons, h2, ih]

theorem find_by_id_updateUsuario_self (db : DB) (x : String) (f : User → User)
    (hf : ∀ u, (f u).id = u.id) :
    UserRepository.find_by_id (db.updateUsuario x f) x
      = (UserRepository.find_by_id db x).map f := by
  unfold UserRepository.find_by_id DB.updateUsuario
  exact find?_updateFirst_pos _ _ (fun u => by simp [hf u]) _

theorem find_by_id_updateUsuario_other (db : DB) (x y : String) (f : User → User)
    (hf : ∀ u, (f u).id = u.id) (hxy : x ≠ y) :
    UserRepository.find_by_id (db.updateUsuario x f) y = UserRepository.find_by_id db y := by
  unfold UserRepository.find_by_id DB.updateUsuario
  refine find?_updateFirst_neg _ _ _ (fun u => by simp [hf u]) (fun u hu => ?_) _
  simp only [beq_iff_eq] at hu ⊢
  simp [hu, hxy]

theorem verificar_acceso_no_write (now : Nat) (db : DB) (uid : String)
    (h : (verificar_acceso_premium now db uid).1.tiene_acceso = true) :
    (verificar_acceso_premium now db uid).2 = db := by
  unfold verificar_acceso_premium at h ⊢
  cases hf : UserRepository.find_by_id db uid with
  | none => rfl
  | some u =>
    simp only [hf] at h ⊢
    by_cases hb : (u.es_premium && u.fecha_expiracion_premium.isSome) = true
    · simp only [if_pos hb] at h ⊢
      by_cases hv : verificar_premium_activo now u.fecha_expiracion_premium = true
      · simp [hv]
      · simp at hv
        simp [hv] at h
    · simp only [if_neg hb] at h ⊢

theorem verificar_acceso_write_cases (now : Nat) (db : DB) (uid : String) :
    (verificar_acceso_premium now db uid).2 = db
    ∨ (verificar_acceso_premium now db uid).2 = UserRepository.desactivar_premium db uid := by
  unfold verificar_acceso_premium
  cases hf : UserRepository.find_by_id db uid with
  | none => left; rfl
  | some u =>
    simp only [hf]
    by_cases hb : (u.es_premium && u.fecha_expiracion_premium.isSome) = true
    · simp only [if_pos hb]
      by_cases hw : (!verificar_premium_activo now u.fecha_expiracion_premium && u.es_premium) = true
      · right; simp [hw]
      · left
        have hbp := hb
        simp at hbp
        have hv : verificar_premium_activo now u.fecha_expiracion_premium = true := by
          by_contra hc
          simp at hc
          simp [hc, hbp.1] at hw
        simp [hv]
    · left
      simp only [if_neg hb]

/-! ## Claim theorems -/

/-- Claim C1 (code bug): on the 5th distinct-driver report the code does not
perform the claimed activation sequence. The lot row is transitioned to
available, but the `int()` conversion of the fixed descriptor "Algunos cupos"
raises ValueError before the fan-out, so no notification count is produced,
the lot's reports are neither marked processed nor purged (the live count is
still 5 afterwards), no message is dispatched, and no Activated outcome is
returned. -/
theorem reporte_umbral_aborta_activacion :
    (reportar_cupos_disponibles 1000 dbUmbral "d5" "p1").1
        = Except.error (PyError.valueError ("invalid literal for int() with base 10: " ++ "Algunos cupos"))
    ∧ ReporteRepository.contar_reportes_activos
        (reportar_cupos_disponibles 1000 dbUmbral "d5" "p1").2.1 "p1" = 5
    ∧ (∀ r ∈ (reportar_cupos_disponibles 1000 dbUmbral "d5" "p1").2.1.reportes, r.procesado = false)
    ∧ ((ParqueaderoRepository.find_by_id (reportar_cupos_disponibles 1000 dbUmbral "d5" "p1").2.1 "p1").map
        (fun p => p.tiene_cupos)) = some true
    ∧ (reportar_cupos_disponibles 1000 dbUmbral "d5" "p1").2.2 = []
    ∧ ∀ n, (reportar_cupos_disponibles 1000 dbUmbral "d5" "p1").1
        ≠ Except.ok (mensaje_activado "Central" n) := by
  refine ⟨by decide, by decide, by decide, by decide, by decide, ?_⟩
  intro n h
  rw [show (reportar_cupos_disponibles 1000 dbUmbral "d5" "p1").1
      = Except.error (PyError.valueError ("invalid literal for int() with base 10: " ++ "Algunos cupos"))
    from by decide] at h
  exact Except.noConfusion h

/-- Claim C2 (code bug): the threshold-activation path converts the
non-numeric descriptor "Algunos cupos" with `int()`, which raises ValueError,
and the exception escapes `submit_report` instead of being returned as a
value. -/
theorem int_descriptor_excepcion_escapa :
    python_int "Algunos cupos" = none
    ∧ (reportar_cupos_disponibles 2000 dbUmbral2 "e5" "q1").1
        = Except.error (PyError.valueError ("invalid literal for int() with base 10: " ++ "Algunos cupos")) := by
  exact ⟨by decide, by decide⟩

/-- Claim C3 counterexample: redeeming a valid code whose owner's stored
premium has already expired (flag still set, expiration in the past) extends
the old expiration by 7 days instead of granting now+7 days as claimed. -/
theorem referido_vencido_extiende_desde_fecha_antigua :
    verificar_premium_activo 864000 (some (.valida 86400)) = false
    ∧ ((UserRepository.find_by_id
          (procesar_codigo_referido 864000 dbReferidorVencido "B" "ABC123").2 "A").map
        (fun u => u.fecha_expiracion_premium)) = some (some (.valida 691200))
    ∧ FechaStr.valida 691200 ≠ calcular_fecha_expiracion_premium 864000 7 := by
  exact ⟨by decide, by decide, by decide⟩

/-- Claim C4 counterexample: when all 10 draws collide and the time-derived
fallback code is already present in the store, `generate_unique_code` returns
a colliding code — the fallback is not checked for availability. -/
theorem codigo_fallback_colisiona :
    (generar_y_asignar_codigo_referido (fun _ => "SB0000") 0 dbCodigoOcupado "Y").1 = "SB0000"
    ∧ UserRepository.verificar_codigo_disponible dbCodigoOcupado "SB0000" = false := by
  exact ⟨by decide, by decide⟩

/-- Claim C5 counterexample: right after expiration, two successive
`check_access` calls with no time passing return different records — the
first reports the stored `is_premium=true` and old expiration, the second
the deactivated record. -/
theorem acceso_expirado_respuestas_distintas :
    (verificar_acceso_premium 200 dbPremiumVencido "u1").1
      ≠ (verificar_acceso_premium 200
          (verificar_acceso_premium 200 dbPremiumVencido "u1").2 "u1").1 := by
  decide

theorem verificar_acceso_dos_llamadas (now : Nat) (db : DB) (uid : String) :
    (verificar_acceso_premium now (verificar_acceso_premium now db uid).2 uid).1.tiene_acceso
      = (verificar_acceso_premium now db uid).1.tiene_acceso
    ∧ (verificar_acceso_premium now (verificar_acceso_premium now db uid).2 uid).1.dias_restantes
      = (verificar_acceso_premium now db uid).1.dias_restantes
    ∧ (verificar_acceso_premium now (verificar_acceso_premium now db uid).2 uid).2
      = (verificar_acceso_premium now db uid).2 := by
  cases hf : UserRepository.find_by_id db uid with
  | none =>
    have h2 : (verificar_acceso_premium now db uid).2 = db := by
      unfold verificar_acceso_premium
      rw [hf]
    rw [h2]
    exact ⟨rfl, rfl, h2⟩
  | some u =>
    by_cases hb : (u.es_premium && u.fecha_expiracion_premium.isSome) = true
    · by_cases hv : verificar_premium_activo now u.fecha_expiracion_premium = true
      · have h2 : (verificar_acceso_premium now db uid).2 = db := by
          unfold verificar_acceso_premium
          rw [hf]
          simp [hb, hv]
        rw [h2]
        exact ⟨rfl, rfl, h2⟩
      · simp at hv
        have hbp := hb
        simp at hbp
        have h2 : (verificar_acceso_premium now db uid).2
            = UserRepository.desactivar_premium db uid := by
          unfold verificar_acceso_premium
          rw [hf]
          simp [hb, hv, hbp.1, hbp.2]
        have ht : (verificar_acceso_premium now db uid).1.tiene_acceso = false := by
          unfold verificar_acceso_premium
          rw [hf]
          simp [hb, hv]
        have hdias : (verificar_acceso_premium now db uid).1.dias_restantes = 0 := by
          unfold verificar_acceso_premium
          rw [hf]
          simp [hb, hv]
        have hfind2 : UserRepository.find_by_id (UserRepository.desactivar_premium db uid) uid
            = some { u with es_premium := false, fecha_expiracion_premium := none } := by
          unfold UserRepository.desactivar_premium
          rw [find_by_id_updateUsuario_self db uid
              (fun u => { u with es_premium := false, fecha_expiracion_premium := none })
              (fun v => rfl), hf]
          rfl
        have hr2 : verificar_acceso_premium now (verificar_acceso_premium now db uid).2 uid
            = ({ tiene_acceso := false, es_premium := false,
                 fecha_expiracion := none, dias_restantes := 0 },
               (verificar_acceso_premium now db uid).2) := by
          rw [h2]
          unfold verificar_acceso_premium
          rw [hfind2]
          simp [h2]
        refine ⟨?_, ?_, ?_⟩
        · rw [hr2, ht]
        · rw [hr2, hdias]
        · rw [hr2]
    · have h2 : (verificar_acceso_premium now db uid).2 = db := by
        unfold verificar_acceso_premium
        rw [hf]
        simp [hb]
      rw [h2]
      exact ⟨rfl, rfl, h2⟩

/-- Claim C5 (corrected/amended): two successive `check_access` calls with no
time passing agree on `has_access` and `days_remaining`, and return fully
identical records whenever the first call performed no write-back; once
`premium_expiration` has passed, the first subsequent call performs the lazy
write-back (setting `is_premium=false` and `premium_expiration=null`) before
returning `has_access=false`, and the immediately following call does not
write again. -/
theorem acceso_premium_estable_tras_escritura (now : Nat) (db : DB) (uid : String) :
    (verificar_acceso_premium now db uid).1.tiene_acceso
      = (verificar_acceso_premium now (verificar_acceso_premium now db uid).2 uid).1.tiene_acceso
    ∧ (verificar_acceso_premium now db uid).1.dias_restantes
      = (verificar_acceso_premium now (verificar_acceso_premium now db uid).2 uid).1.dias_restantes
    ∧ ((verificar_acceso_premium now db uid).2 = db →
        (verificar_acceso_premium now (verificar_acceso_premium now db uid).2 uid).1
          = (verificar_acceso_premium now db uid).1)
    ∧ (verificar_acceso_premium now (verificar_acceso_premium now db uid).2 uid).2
      = (verificar_acceso_premium now db uid).2
    ∧ (∀ u, UserRepository.find_by_id db uid = some u → u.es_premium = true →
        verificar_premium_activo now u.fecha_expiracion_premium = false →
        u.fecha_expiracion_premium.isSome = true →
        (verificar_acceso_premium now db uid).2 = UserRepository.desactivar_premium db uid
        ∧ (verificar_acceso_premium now db uid).1.tiene_acceso = false) := by
  obtain ⟨ha, hd, hw⟩ := verificar_acceso_dos_llamadas now db uid
  refine ⟨ha.symm, hd.symm, fun h => by rw [h], hw, ?_⟩
  intro u hfu hes hver hsome
  constructor
  · unfold verificar_acceso_premium
    rw [hfu]
    simp [hes, hsome, hver]
  · unfold verificar_acceso_premium
    rw [hfu]
    simp [hes, hsome, hver]

/-- Witness for C5: at the concrete expired store the lazy write-back happens
on the first call and access is denied. -/
theorem acceso_premium_estable_witness :
    (verificar_acceso_premium 200 dbPremiumVencido "u1").2
      = UserRepository.desactivar_premium dbPremiumVencido "u1"
    ∧ (verificar_acceso_premium 200 dbPremiumVencido "u1").1.tiene_acceso = false :=
  (acceso_premium_estable_tras_escritura 200 dbPremiumVencido "u1").2.2.2.2
    { id := "u1", es_premium := true, fecha_expiracion_premium := some (.valida 100) }
    (by decide) (by decide) (by decide) (by decide)

/-- Claim C3 (corrected/amended): redeeming a valid code extends the
referrer's expiration by 7 days from its stored value whenever the stored
record has `is_premium=true` and an expiration value — liveness is NOT
checked, so an already-expired date is also extended from its old value; only
when the flag is unset or the expiration is missing does the grant start at
now+7 days (and when the stored date fails to parse, the extension falls back
to now+7 days). In all cases `is_premium` is set to true. -/
theorem referido_extension_premium (now : Nat) (db : DB) (wa codigo : String) (ref : User)
    (h1 : UserRepository.buscar_por_codigo_referido db codigo = some ref)
    (h2 : UserRepository.find_by_id db ref.id = some ref)
    (h3 : ref.id ≠ wa) :
    (procesar_codigo_referido now db wa codigo).1.exito = true
    ∧ ∃ u', UserRepository.find_by_id (procesar_codigo_referido now db wa codigo).2 ref.id = some u'
        ∧ u'.es_premium = true
        ∧ (∀ t, ref.es_premium = true → ref.fecha_expiracion_premium = some (.valida t) →
            u'.fecha_expiracion_premium = some (.valida (t + 7 * 86400)))
        ∧ (ref.es_premium = false ∨ ref.fecha_expiracion_premium = none →
            u'.fecha_expiracion_premium = some (.valida (now + 7 * 86400)))
        ∧ (∀ s, ref.es_premium = true → ref.fecha_expiracion_premium = some (.invalida s) →
            u'.fecha_expiracion_premium = some (.valida (now + 7 * 86400))) := by
  have e1 : UserRepository.find_by_id (UserRepository.registrar_referido db wa codigo) ref.id
      = some ref := by
    unfold UserRepository.registrar_referido
    rw [find_by_id_updateUsuario_other db wa ref.id
        (fun u => { u with referido_por := some codigo }) (fun v => rfl)
        (fun hh => h3 hh.symm)]
    exact h2
  have e2 : UserRepository.find_by_id
      (UserRepository.incrementar_referidos (UserRepository.registrar_referido db wa codigo) ref.id)
      ref.id = some { ref with numero_referidos := ref.numero_referidos + 1 } := by
    unfold UserRepository.incrementar_referidos
    rw [find_by_id_updateUsuario_self _ ref.id
        (fun u => { u with numero_referidos := u.numero_referidos + 1 }) (fun v => rfl), e1]
    rfl
  unfold procesar_codigo_referido
  rw [h1]
  refine ⟨rfl, ?_⟩
  refine ⟨⟨ref.id, ref.name, true,
    some (if ref.fecha_expiracion_premium.isSome && ref.es_premium then
            extender_fecha_expiracion_premium now ref.fecha_expiracion_premium 7
          else calcular_fecha_expiracion_premium now 7),
    ref.codigo_referido, ref.referido_por, ref.numero_referidos + 1⟩, ?_, rfl, ?_, ?_, ?_⟩
  · show UserRepository.find_by_id (UserRepository.activar_premium _ ref.id _) ref.id = _
    unfold UserRepository.activar_premium
    rw [find_by_id_updateUsuario_self]
    · rw [e2]
      rfl
    · intro v
      rfl
  · intro t hes hfe
    show some _ = _
    rw [hfe, hes]
    simp [extender_fecha_expiracion_premium]
  · intro h
    show some _ = _
    rcases h with h | h
    · rw [h]
      simp [calcular_fecha_expiracion_premium]
    · rw [h]
      simp [calcular_fecha_expiracion_premium]
  · intro s hes hfe
    show some _ = _
    rw [hfe, hes]
    simp [extender_fecha_expiracion_premium, calcular_fecha_expiracion_premium]

/-- Witness for C3: redeeming "ABC123" against the concrete store succeeds and
extends the expired referrer from the old date. -/
theorem referido_extension_witness :
    (procesar_codigo_referido 864000 dbReferidorVencido "B" "ABC123").1.exito = true :=
  (referido_extension_premium 864000 dbReferidorVencido "B" "ABC123"
    { id := "A", es_premium := true, fecha_expiracion_premium := some (.valida 86400),
      codigo_referido := some "ABC123" }
    (by decide) (by decide) (by decide)).1

/-- Claim C9 (confirmed): self-referral is permitted — redeeming one's own
code succeeds, records the user as referred by their own code, increments
their own referral count by 1, and grants themselves the premium block; no
check excludes redeeming one's own code. -/
theorem auto_referido_permitido (now : Nat) (db : DB) (wa codigo : String) (u : User)
    (h1 : UserRepository.buscar_por_codigo_referido db codigo = some u)
    (h2 : u.id = wa)
    (h3 : UserRepository.find_by_id db wa = some u) :
    (procesar_codigo_referido now db wa codigo).1.exito = true
    ∧ (procesar_codigo_referido now db wa codigo).1.referidor_id = some wa
    ∧ ∃ u', UserRepository.find_by_id (procesar_codigo_referido now db wa codigo).2 wa = some u'
        ∧ u'.referido_por = some codigo
        ∧ u'.numero_referidos = u.numero_referidos + 1
        ∧ u'.es_premium = true
        ∧ u'.fecha_expiracion_premium.isSome = true := by
  subst h2
  have e1 : UserRepository.find_by_id (UserRepository.registrar_referido db u.id codigo) u.id
      = some { u with referido_por := some codigo } := by
    unfold UserRepository.registrar_referido
    rw [find_by_id_updateUsuario_self _ u.id
        (fun v => { v with referido_por := some codigo }) (fun v => rfl), h3]
    rfl
  have e2 : UserRepository.find_by_id
      (UserRepository.incrementar_referidos
        (UserRepository.registrar_referido db u.id codigo) u.id) u.id
      = some { u with referido_por := some codigo, numero_referidos := u.numero_referidos + 1 } := by
    unfold UserRepository.incrementar_referidos
    rw [find_by_id_updateUsuario_self _ u.id
        (fun v => { v with numero_referidos := v.numero_referidos + 1 }) (fun v => rfl), e1]
    rfl
  unfold procesar_codigo_referido
  rw [h1]
  refine ⟨rfl, rfl, ?_⟩
  refine ⟨⟨u.id, u.name, true,
    some (if u.fecha_expiracion_premium.isSome && u.es_premium then
            extender_fecha_expiracion_premium now u.fecha_expiracion_premium 7
          else calcular_fecha_expiracion_premium now 7),
    u.codigo_referido, some codigo, u.numero_referidos + 1⟩, ?_, rfl, rfl, rfl, rfl⟩
  show UserRepository.find_by_id (UserRepository.activar_premium _ u.id _) u.id = _
  unfold UserRepository.activar_premium
  rw [find_by_id_updateUsuario_self]
  · rw [e2]
    rfl
  · intro v
    rfl

/-- Witness for C9: the user Z redeems their own code "MIOMIO" successfully. -/
theorem auto_referido_witness :
    (procesar_codigo_referido 5 dbAutoReferido "Z" "MIOMIO").1.exito = true
    ∧ (procesar_codigo_referido 5 dbAutoReferido "Z" "MIOMIO").1.referidor_id = some "Z" :=
  ⟨(auto_referido_permitido 5 dbAutoReferido "Z" "MIOMIO"
      { id := "Z", codigo_referido := some "MIOMIO", numero_referidos := 2 }
      (by decide) rfl (by decide)).1,
   (auto_referido_permitido 5 dbAutoReferido "Z" "MIOMIO"
      { id := "Z", codigo_referido := some "MIOMIO", numero_referidos := 2 }
      (by decide) rfl (by decide)).2.1⟩

theorem intentos_codigo_disponible (rand : Nat → String) (db : DB) :
    ∀ fuel i c, intentos_codigo rand db i fuel = some c →
      UserRepository.verificar_codigo_disponible db c = true := by
  intro fuel
  induction fuel with
  | zero =>
    intro i c h
    exact absurd h (by simp [intentos_codigo])
  | succ n ih =>
    intro i c h
    unfold intentos_codigo at h
    by_cases hd : UserRepository.verificar_codigo_disponible db (rand i) = true
    · rw [if_pos hd] at h
      exact (Option.some.inj h) ▸ hd
    · rw [if_neg hd] at h
      exact ih (i + 1) c h

theorem intentos_codigo_none (rand : Nat → String) (db : DB) :
    ∀ fuel i, (∀ j, j < fuel →
        UserRepository.verificar_codigo_disponible db (rand (i + j)) = false) →
      intentos_codigo rand db i fuel = none := by
  intro fuel
  induction fuel with
  | zero => intro i _; rfl
  | succ n ih =>
    intro i hall
    unfold intentos_codigo
    have h0 : UserRepository.verificar_codigo_disponible db (rand i) = false := by
      simpa using hall 0 (Nat.succ_pos n)
    rw [if_neg (by simp [h0])]
    refine ih (i + 1) (fun j hj => ?_)
    have he : i + 1 + j = i + (j + 1) := by omega
    rw [he]
    exact hall (j + 1) (Nat.succ_lt_succ hj)

theorem intentos_codigo_some (rand : Nat → String) (db : DB) :
    ∀ fuel i, (∃ j, j < fuel ∧
        UserRepository.verificar_codigo_disponible db (rand (i + j)) = true) →
      ∃ c, intentos_codigo rand db i fuel = some c := by
  intro fuel
  induction fuel with
  | zero =>
    rintro i ⟨j, hj, _⟩
    exact absurd hj (Nat.not_lt_zero j)
  | succ n ih =>
    rintro i ⟨j, hj, hdisp⟩
    unfold intentos_codigo
    by_cases hd : UserRepository.verificar_codigo_disponible db (rand i) = true
    · exact ⟨rand i, by rw [if_pos hd]⟩
    · rw [if_neg hd]
      rcases j with _ | k
      · simp only [Nat.add_zero] at hdisp
        exact absurd hdisp hd
      · refine ih (i + 1) ⟨k, Nat.lt_of_succ_lt_succ hj, ?_⟩
        have he : i + 1 + k = i + (k + 1) := by omega
        rw [he]
        exact hdisp

/-- Claim C4 (corrected/amended): `generate_unique_code` checks up to 10
random draws for availability and, whenever any of the 10 draws is available,
the returned code is available (no collision); but when all 10 draws collide
it returns the time-derived fallback code "SB"+4 digits WITHOUT any
availability check, so against a pre-seeded store the fallback can collide —
it is not unique by construction. -/
theorem generar_codigo_sin_colision_si_intento_libre (rand : Nat → String) (time : Nat)
    (db : DB) (wa_id : String) :
    ((∃ i, i < 10 ∧ UserRepository.verificar_codigo_disponible db (rand i) = true) →
      UserRepository.verificar_codigo_disponible db
        (generar_y_asignar_codigo_referido rand time db wa_id).1 = true)
    ∧ ((∀ i, i < 10 → UserRepository.verificar_codigo_disponible db (rand i) = false) →
      (generar_y_asignar_codigo_referido rand time db wa_id).1 = codigo_timestamp time) := by
  constructor
  · rintro ⟨i, hi, hdisp⟩
    obtain ⟨c, hc⟩ := intentos_codigo_some rand db 10 0 ⟨i, hi, by simpa using hdisp⟩
    unfold generar_y_asignar_codigo_referido
    rw [hc]
    exact intentos_codigo_disponible rand db 10 0 c hc
  · intro hall
    unfold generar_y_asignar_codigo_referido
    rw [intentos_codigo_none rand db 10 0 (fun j hj => by simpa using hall j hj)]

/-- Witness for C4: with a first draw that is free in the concrete store, the
returned code does not collide. -/
theorem generar_codigo_witness :
    UserRepository.verificar_codigo_disponible dbCodigoOcupado
      (generar_y_asignar_codigo_referido (fun _ => "QQQQQQ") 0 dbCodigoOcupado "Y").1 = true :=
  (generar_codigo_sin_colision_si_intento_libre (fun _ => "QQQQQQ") 0 dbCodigoOcupado "Y").1
    ⟨0, by decide, by decide⟩

/-- Claim C6 (confirmed): when an unprocessed report by the same driver for
the same lot exists, `submit_report` returns the duplicate outcome carrying
the current live count, creates no row, leaves the store untouched, and a
second identical call yields the same duplicate outcome with an unchanged
count. -/
theorem reporte_duplicado (now : Nat) (db : DB) (uid pid : String) (p : Parqueadero)
    (hp : ParqueaderoRepository.find_by_id db pid = some p)
    (hdup : ReporteRepository.verificar_reporte_existente db pid uid = true) :
    reportar_cupos_disponibles now db uid pid
      = (Except.ok (mensaje_ya_reportado p.name
          (ReporteRepository.contar_reportes_activos db pid)), db, [])
    ∧ reportar_cupos_disponibles now (reportar_cupos_disponibles now db uid pid).2.1 uid pid
      = (Except.ok (mensaje_ya_reportado p.name
          (ReporteRepository.contar_reportes_activos db pid)), db, []) := by
  have h1 : reportar_cupos_disponibles now db uid pid
      = (Except.ok (mensaje_ya_reportado p.name
          (ReporteRepository.contar_reportes_activos db pid)), db, []) := by
    unfold reportar_cupos_disponibles
    rw [hp]
    simp [hdup]
  refine ⟨h1, ?_⟩
  rw [h1]
  exact h1

/-- Witness for C6: driver d1 re-reports lot p9 and gets the duplicate
outcome with the live count 2 and an unchanged store. -/
theorem reporte_duplicado_witness :
    reportar_cupos_disponibles 7 dbDuplicado "d1" "p9"
      = (Except.ok (mensaje_ya_reportado "Oeste"
          (ReporteRepository.contar_reportes_activos dbDuplicado "p9")), dbDuplicado, []) :=
  (reporte_duplicado 7 dbDuplicado "d1" "p9"
    { id := "p9", name := "Oeste", ubicacion := "Cll 40", capacidad := 15 }
    (by decide) (by decide)).1

/-- Claim C7 (confirmed): for a premium caller, wildcard subscribe returns
AlreadySubscribed without mutating state when an active wildcard exists;
otherwise it deactivates every active subscription of the driver before
appending the wildcard, so afterwards the only active subscription of the
driver is the wildcard; and the precedence is one-way — a specific subscribe
checks only for an identical active specific subscription, never for an
existing wildcard, and appends the specific row even when a wildcard is
active. -/
theorem suscripcion_comodin_precedencia (now : Nat) (db : DB) (uid pid : String)
    (hacc : (verificar_acceso_premium now db uid).1.tiene_acceso = true) :
    ((∃ s, SuscripcionRepository.find_active_suscripcion db uid none = some s) →
      suscribirse_a_todos now db uid = (mensaje_ya_suscrito_todos, [], db))
    ∧ (SuscripcionRepository.find_active_suscripcion db uid none = none →
      (suscribirse_a_todos now db uid).2.2.suscripciones
        = db.suscripciones.map (fun s =>
            if s.conductor_id == uid && s.activa then { s with activa := false } else s)
          ++ [⟨uid, none, some (obtener_tiempo_bogota now), true⟩]
      ∧ ∀ s' ∈ (suscribirse_a_todos now db uid).2.2.suscripciones,
          s'.conductor_id = uid → s'.activa = true → s'.parqueadero_id = none)
    ∧ (∀ p, ParqueaderoRepository.find_by_id db pid = some p →
        SuscripcionRepository.find_active_suscripcion db uid (some pid) = none →
        suscribirse_a_parqueadero now db uid pid
          = (mensaje_suscripcion_exitosa p.name
              (verificar_acceso_premium now db uid).1.dias_restantes,
             [], SuscripcionRepository.create_suscripcion now db uid (some pid))) := by
  have hw : (verificar_acceso_premium now db uid).2 = db :=
    verificar_acceso_no_write now db uid hacc
  refine ⟨?_, ?_, ?_⟩
  · rintro ⟨s, hs⟩
    unfold suscribirse_a_todos
    simp [hacc, hw, hs]
  · intro hn
    unfold suscribirse_a_todos
    simp only [hacc, hw, hn, Bool.not_true, Bool.false_eq_true, if_false]
    constructor
    · rfl
    · intro s' hs' hc ha
      rcases List.mem_append.mp hs' with hm | hm
      · obtain ⟨s, hsmem, rfl⟩ := List.mem_map.mp hm
        by_cases hcond : (s.conductor_id == uid && s.activa) = true
        · rw [if_pos hcond] at ha
          exact absurd ha (by simp)
        · rw [if_neg hcond] at hc ha
          exact absurd (by simp [hc, ha]) hcond
      · rw [List.mem_singleton.mp hm]
  · intro p hp hno
    unfold suscribirse_a_parqueadero
    simp [hacc, hw, hp, hno]

/-- Witness for C7: premium driver c1 already holds an active wildcard, so a
second wildcard subscribe returns AlreadySubscribed with the store
unchanged. -/
theorem suscripcion_comodin_witness :
    suscribirse_a_todos 0 dbSuscriptor "c1" = (mensaje_ya_suscrito_todos, [], dbSuscriptor) :=
  (suscripcion_comodin_precedencia 0 dbSuscriptor "c1" "r1" (by decide)).1
    ⟨⟨"c1", none, none, true⟩, by decide⟩

theorem mensaje_paywall_contiene (c : String) (n : Nat) :
    (∃ x y, mensaje_paywall c n = x ++ (c ++ y))
    ∧ (∃ x y, mensaje_paywall c n = x ++ (toString n ++ y))
    ∧ (∃ x y, mensaje_paywall c n = x ++ (toString (n * 7) ++ y)) := by
  refine ⟨⟨paywallSeg1, paywallSeg2 ++ toString n ++ paywallSeg3 ++ toString (n * 7)
      ++ paywallSeg4 ++ c ++ paywallSeg5, ?_⟩,
    ⟨paywallSeg1 ++ c ++ paywallSeg2, paywallSeg3 ++ toString (n * 7)
      ++ paywallSeg4 ++ c ++ paywallSeg5, ?_⟩,
    ⟨paywallSeg1 ++ c ++ paywallSeg2 ++ toString n ++ paywallSeg3,
      paywallSeg4 ++ c ++ paywallSeg5, ?_⟩⟩
  · simp only [mensaje_paywall, String.append_assoc]
  · simp only [mensaje_paywall, String.append_assoc]
  · simp only [mensaje_paywall, String.append_assoc]

theorem mostrar_paywall_tras_verificacion (now : Nat) (db : DB) (uid : String) (u : User)
    (c : String) (hu : UserRepository.find_by_id db uid = some u)
    (hc : u.codigo_referido = some c) :
    mostrar_paywall_notificaciones (verificar_acceso_premium now db uid).2 uid
      = mensaje_paywall c u.numero_referidos := by
  rcases verificar_acceso_write_cases now db uid with hw | hw
  · rw [hw]
    unfold mostrar_paywall_notificaciones
    rw [hu]
    show mensaje_paywall (u.codigo_referido.getD "None") u.numero_referidos = _
    rw [hc]
    rfl
  · rw [hw]
    unfold mostrar_paywall_notificaciones UserRepository.desactivar_premium
    rw [find_by_id_updateUsuario_self]
    · rw [hu]
      show mensaje_paywall (u.codigo_referido.getD "None") u.numero_referidos = _
      rw [hc]
      rfl
    · intro v
      rfl

/-- Claim C8 (confirmed): a subscribe request by a user without premium access
returns the paywall outcome, sends the caller one paywall message containing
the user's own referral code, referral count and days earned, and does not
create or modify any subscription row. -/
theorem paywall_sin_premium (now : Nat) (db : DB) (uid pid : String) (u : User) (c : String)
    (hu : UserRepository.find_by_id db uid = some u)
    (hc : u.codigo_referido = some c)
    (hna : (verificar_acceso_premium now db uid).1.tiene_acceso = false) :
    (suscribirse_a_parqueadero now db uid pid).1 = mensaje_lock_premium
    ∧ (suscribirse_a_parqueadero now db uid pid).2.1
        = [(uid, mensaje_paywall c u.numero_referidos)]
    ∧ (suscribirse_a_parqueadero now db uid pid).2.2.suscripciones = db.suscripciones
    ∧ (∃ x y, mensaje_paywall c u.numero_referidos = x ++ (c ++ y))
    ∧ (∃ x y, mensaje_paywall c u.numero_referidos
        = x ++ (toString u.numero_referidos ++ y))
    ∧ (∃ x y, mensaje_paywall c u.numero_referidos
        = x ++ (toString (u.numero_referidos * 7) ++ y)) := by
  obtain ⟨hx1, hx2, hx3⟩ := mensaje_paywall_contiene c u.numero_referidos
  have hsusc : (verificar_acceso_premium now db uid).2.suscripciones = db.suscripciones := by
    rcases verificar_acceso_write_cases now db uid with hw | hw
    · rw [hw]
    · rw [hw]
      rfl
  refine ⟨?_, ?_, ?_, hx1, hx2, hx3⟩
  · unfold suscribirse_a_parqueadero
    simp [hna]
  · unfold suscribirse_a_parqueadero
    simp [hna]
    exact mostrar_paywall_tras_verificacion now db uid u c hu hc
  · unfold suscribirse_a_parqueadero
    simp [hna]
    exact hsusc

/-- Witness for C8: the non-premium driver c2 with 3 referrals receives the
paywall containing code "REF333" and "3"; no subscription row changes. -/
theorem paywall_sin_premium_witness :
    (suscribirse_a_parqueadero 50 dbSinPremium "c2" "r2").1 = mensaje_lock_premium
    ∧ (suscribirse_a_parqueadero 50 dbSinPremium "c2" "r2").2.1
        = [("c2", mensaje_paywall "REF333" 3)]
    ∧ (suscribirse_a_parqueadero 50 dbSinPremium "c2" "r2").2.2.suscripciones
        = dbSinPremium.suscripciones :=
  have h := paywall_sin_premium 50 dbSinPremium "c2" "r2"
    { id := "c2", codigo_referido := some "REF333", numero_referidos := 3 }
    "REF333" (by decide) (by decide) (by decide)
  ⟨h.1, h.2.1, h.2.2.1⟩

theorem verificar_acceso_solo_usuarios (now : Nat) (db1 db2 : DB) (uid : String)
    (h : db1.usuarios = db2.usuarios) :
    (verificar_acceso_premium now db1 uid).1 = (verificar_acceso_premium now db2 uid).1
    ∧ (verificar_acceso_premium now db1 uid).2.usuarios
      = (verificar_acceso_premium now db2 uid).2.usuarios := by
  unfold verificar_acceso_premium UserRepository.find_by_id
  rw [h]
  cases hf : db2.usuarios.find? (fun u => u.id == uid) with
  | none => exact ⟨rfl, h⟩
  | some u =>
    by_cases hb : (u.es_premium && u.fecha_expiracion_premium.isSome) = true
    · by_cases hv : verificar_premium_activo now u.fecha_expiracion_premium = true
      · simp [hb, hv, h]
      · simp only [Bool.not_eq_true] at hv
        have hbp := hb
        simp only [Bool.and_eq_true] at hbp
        simp [hb, hv, hbp.1, hbp.2, UserRepository.desactivar_premium, DB.updateUsuario, h]
    · simp [hb, h]

theorem mostrar_paywall_solo_usuarios (db1 db2 : DB) (uid : String)
    (h : db1.usuarios = db2.usuarios) :
    mostrar_paywall_notificaciones db1 uid = mostrar_paywall_notificaciones db2 uid := by
  unfold mostrar_paywall_notificaciones UserRepository.find_by_id
  rw [h]

theorem mensaje_lock_ne_no_encontrado (pid : String) :
    mensaje_lock_premium ≠ mensaje_parqueadero_no_encontrado pid := by
  intro h
  have h2 := congrArg String.data h
  unfold mensaje_lock_premium mensaje_parqueadero_no_encontrado at h2
  rw [String.data_append] at h2
  have h3 := congrArg List.head? h2
  rw [List.head?_append_of_ne_nil _ (by decide)] at h3
  exact absurd h3 (by decide)

/-- Claim C10 (confirmed): the premium gate runs before the lot-existence
check: for a caller without premium access the specific-lot subscribe returns
the paywall outcome for every lot id, never the not-found outcome, and its
outcome and outgoing messages do not depend on the lot store at all — the lot
lookup is reached only with premium access. -/
theorem paywall_antes_de_busqueda (now : Nat) (db : DB) (uid : String)
    (hna : (verificar_acceso_premium now db uid).1.tiene_acceso = false) :
    ∀ pid : String,
      (suscribirse_a_parqueadero now db uid pid).1 = mensaje_lock_premium
      ∧ (suscribirse_a_parqueadero now db uid pid).1 ≠ mensaje_parqueadero_no_encontrado pid
      ∧ ∀ ps : List Parqueadero,
          (suscribirse_a_parqueadero now { db with parqueaderos := ps } uid pid).1
            = (suscribirse_a_parqueadero now db uid pid).1
          ∧ (suscribirse_a_parqueadero now { db with parqueaderos := ps } uid pid).2.1
            = (suscribirse_a_parqueadero now db uid pid).2.1 := by
  intro pid
  have h1 : (suscribirse_a_parqueadero now db uid pid).1 = mensaje_lock_premium := by
    unfold suscribirse_a_parqueadero
    simp [hna]
  refine ⟨h1, by rw [h1]; exact mensaje_lock_ne_no_encontrado pid, ?_⟩
  intro ps
  obtain ⟨hv1, hv2⟩ :=
    verificar_acceso_solo_usuarios now { db with parqueaderos := ps } db uid rfl
  have hna2 : (verificar_acceso_premium now
      { db with parqueaderos := ps } uid).1.tiene_acceso = false := by
    rw [hv1]
    exact hna
  have h1ps : (suscribirse_a_parqueadero now
      { db with parqueaderos := ps } uid pid).1 = mensaje_lock_premium := by
    unfold suscribirse_a_parqueadero
    simp [hna2]
  constructor
  · rw [h1ps, h1]
  · have ho : (suscribirse_a_parqueadero now db uid pid).2.1
        = [(uid, mostrar_paywall_notificaciones
            (verificar_acceso_premium now db uid).2 uid)] := by
      unfold suscribirse_a_parqueadero
      simp [hna]
    have hops : (suscribirse_a_parqueadero now { db with parqueaderos := ps } uid pid).2.1
        = [(uid, mostrar_paywall_notificaciones
            (verificar_acceso_premium now { db with parqueaderos := ps } uid).2 uid)] := by
      unfold suscribirse_a_parqueadero
      simp [hna2]
    rw [ho, hops, mostrar_paywall_solo_usuarios _ _ uid hv2]

/-- Witness for C10: the non-premium driver c2 gets the paywall outcome, not
not-found, even for a lot id that does not exist. -/
theorem paywall_antes_de_busqueda_witness :
    (suscribirse_a_parqueadero 50 dbSinPremium "c2" "no-existe").1 = mensaje_lock_premium
    ∧ (suscribirse_a_parqueadero 50 dbSinPremium "c2" "no-existe").1
        ≠ mensaje_parqueadero_no_encontrado "no-existe" :=
  have h := paywall_antes_de_busqueda 50 dbSinPremium "c2" (by decide) "no-existe"
  ⟨h.1, h.2.1⟩
